import Mathlib

/-!
Verification of the botchat fan-out / streaming orchestration engine
(backend/app/main.py and backend/app/providers) against its specification.

The definitions below are a shallow embedding of the source code:

- Events published on the per-run channel are modelled by the `Event`
  inductive, mirroring the SSE event kinds of main.py.
- The per-panel worker threads `_run_gemini_thread`, `_run_openai_thread`
  and `_run_anthropic_thread` are structurally identical in main.py
  (same retry loop, same exception arms, same publication order); they are
  embedded once as `run_provider_thread`, abstracting one provider attempt
  by an `AttemptOutcome` (the chunks the generator yielded before either
  finishing or raising, and how the raised error was classified).
- The wrappers `_stream_gemini_native` etc. (the asyncio.to_thread call
  followed by the fallback publication of an empty panel_final) are
  embedded as `stream_provider_native`, and `stream_to_provider` adds the
  panel_start and panel_privacy prefix exactly as in main.py.
- `run_fanout` embeds the coordinator, `cleanup_stale_runs` the registry
  sweep, `stream_events_cleanup` the purge in the finally block of the
  event stream route, and `create_run` the validation sequence of the
  POST /runs route.
- The error classifiers of providers/openai.py and providers/gemini.py are
  embedded as `classify_openai_error` and `classify_gemini_error` over a
  Python-style substring test.
-/

/-- One serialized event on the per-run channel, as published by main.py. -/
inductive Event where
  | runStart (runId : String) (n : Nat)
  | panelStart (configId : String)
  | panelPrivacy (configId : String)
  | panelToken (configId : String) (token : String)
  | panelFinal (configId : String) (finalText : String)
  | panelCitations (configId : String)
  | panelError (configId : String) (error : String)
  | runDone (runId : String) (quota : Option (Nat × Nat))
  | runError (runId : String) (error : String)
deriving DecidableEq, Repr

/-- Python str.strip removes these characters at both ends. -/
def isPyWhitespace (c : Char) : Bool :=
  c == ' ' || c == '\t' || c == '\n' || c == '\r' || c == Char.ofNat 11 || c == Char.ofNat 12

/-- Embedding of Python str.strip(). -/
def pyStrip (s : String) : String :=
  String.mk (((s.data.dropWhile isPyWhitespace).reverse.dropWhile isPyWhitespace).reverse)

/-- Embedding of Python "".join(parts). -/
def joinParts (parts : List String) : String :=
  parts.foldl (fun acc p => acc ++ p) ""

/-- Whether the first character list is a leading segment of the second. -/
def charLeadSeg : List Char → List Char → Bool
  | [], _ => true
  | _ :: _, [] => false
  | a :: ps, b :: ss => a == b && charLeadSeg ps ss

/-- Whether the first character list occurs contiguously inside the second. -/
def charOccursIn : List Char → List Char → Bool
  | pat, [] => charLeadSeg pat []
  | pat, s :: ss => charLeadSeg pat (s :: ss) || charOccursIn pat ss

/-- Embedding of the Python substring test: pat in s. -/
def containsSub (s pat : String) : Bool :=
  charOccursIn pat.data s.data

/-- Embedding of Python str.lower() over ASCII data. -/
def lowerStr (s : String) : String :=
  String.mk (s.data.map Char.toLower)

/-- How one provider attempt inside the retry loop of main.py ends:
the text chunks the generator yielded before it finished or raised, and
the classification of the raised exception.  success mirrors normal
generator exhaustion (with the generator return value abstracted by the
citations flag), rateLimit mirrors the provider RateLimitError,
apiError mirrors every other provider APIError subclass (authentication,
model-not-found, bad-request, context-length, base), and unclassified
mirrors the bare except Exception arm. -/
inductive AttemptOutcome where
  | success (chunks : List String) (citations : Bool)
  | rateLimit (chunks : List String) (msg : String)
  | apiError (chunks : List String) (msg : String)
  | unclassified (chunks : List String) (tyName : String) (msg : String)
deriving DecidableEq, Repr

/-- What one panel worker produced: the events it pushed onto the run
channel in order, the time.sleep waits it performed, the entry it wrote
into run.finals for its config id, whether it appended its config id to
run.successful_platform_configs, and how many provider attempts it made. -/
structure ThreadResult where
  events : List Event
  sleeps : List Nat
  finalsEntry : Option String
  platformSuccess : Bool
  attempts : Nat
deriving DecidableEq, Repr

/-- Embedding of the worker thread body shared by _run_gemini_thread,
_run_openai_thread and _run_anthropic_thread in main.py: the
while retry_count <= max_retries loop with max_retries = 3.  Tokens are
pushed as they arrive; on success the joined stripped text is written to
run.finals and panel_final (plus panel_citations when the generator
returned citations) is pushed; on a rate-limit error with retries left
the thread sleeps 2 ** retry_count and retries; otherwise a terminal
panel_error is pushed.  The empty-outcomes case is unreachable in the
source (each loop iteration performs exactly one provider attempt). -/
def run_provider_thread (cfgId : String) (isPlatform : Bool)
    (outcomes : List AttemptOutcome) (retryCount : Nat) : ThreadResult :=
  match outcomes with
  | [] => ⟨[], [], none, false, 0⟩
  | o :: rest =>
    match o with
    | .success chunks cits =>
      let fin := pyStrip (joinParts chunks)
      ⟨chunks.map (Event.panelToken cfgId)
         ++ [Event.panelFinal cfgId fin]
         ++ (if cits then [Event.panelCitations cfgId] else []),
       [], some fin, isPlatform, 1⟩
    | .rateLimit chunks msg =>
      if retryCount < 3 then
        let r := run_provider_thread cfgId isPlatform rest (retryCount + 1)
        ⟨chunks.map (Event.panelToken cfgId) ++ r.events,
         2 ^ retryCount :: r.sleeps, r.finalsEntry, r.platformSuccess, r.attempts + 1⟩
      else
        ⟨chunks.map (Event.panelToken cfgId)
           ++ [Event.panelError cfgId
                ("Rate limited after " ++ toString retryCount ++ " retries: " ++ msg)],
         [], none, false, 1⟩
    | .apiError chunks msg =>
      ⟨chunks.map (Event.panelToken cfgId) ++ [Event.panelError cfgId msg],
       [], none, false, 1⟩
    | .unclassified chunks ty msg =>
      ⟨chunks.map (Event.panelToken cfgId) ++ [Event.panelError cfgId (ty ++ ": " ++ msg)],
       [], none, false, 1⟩

/-- Embedding of _stream_gemini_native / _stream_openai_native /
_stream_anthropic_native in main.py: run the worker thread, then read
final = run.finals.get(cfg.id, "") and, when that is empty, publish one
more panel_final carrying the empty string.  The except branch around
asyncio.to_thread is dead in the source because the thread body catches
every exception, so it is not modelled. -/
def stream_provider_native (cfgId : String) (isPlatform : Bool)
    (outcomes : List AttemptOutcome) : ThreadResult :=
  let t := run_provider_thread cfgId isPlatform outcomes 0
  let fin := t.finalsEntry.getD ""
  if fin = "" then
    { t with events := t.events ++ [Event.panelFinal cfgId ""] }
  else
    t

/-- Embedding of stream_to_provider in main.py: publish panel_start and
panel_privacy, then dispatch on the provider name; an unknown provider
gets an immediate panel_error. -/
def stream_to_provider (cfgId : String) (isPlatform : Bool) (knownProvider : Bool)
    (outcomes : List AttemptOutcome) : ThreadResult :=
  if knownProvider then
    let r := stream_provider_native cfgId isPlatform outcomes
    { r with events := Event.panelStart cfgId :: Event.panelPrivacy cfgId :: r.events }
  else
    ⟨[Event.panelStart cfgId, Event.panelPrivacy cfgId,
      Event.panelError cfgId "Unknown provider"], [], none, false, 0⟩

/-- True for the two terminal panel event kinds of the given panel. -/
def isTerminalFor (cfgId : String) : Event → Bool
  | .panelFinal c _ => c == cfgId
  | .panelError c _ => c == cfgId
  | _ => false

/-- True for a panel_start event of the given panel. -/
def isPanelStartFor (cfgId : String) : Event → Bool
  | .panelStart c => c == cfgId
  | _ => false

/-- True for a panel_error event of the given panel. -/
def isPanelErrorFor (cfgId : String) : Event → Bool
  | .panelError c _ => c == cfgId
  | _ => false

/-- True for the two terminal run event kinds. -/
def isRunTerminal : Event → Bool
  | .runDone _ _ => true
  | .runError _ _ => true
  | _ => false

/-- One panel dispatch unit handed to run_fanout: the config id, whether
it was injected with a platform key, whether its provider name is one of
the three known kinds, and the outcome of each provider attempt. -/
structure PanelSpec where
  cfgId : String
  isPlatform : Bool
  knownProvider : Bool
  outcomes : List AttemptOutcome
deriving DecidableEq, Repr

/-- Result of the awaited increment_quota call inside run_fanout:
it raised (caught and logged), returned a falsy value, or returned a
usage snapshot. -/
inductive QuotaOutcome where
  | failure
  | noneReturned
  | snapshot (used lim : Nat)
deriving DecidableEq, Repr

/-- What one run_fanout invocation produced: the channel events in
order, the final value of run.done, the capacity the semaphore was
constructed with (none when construction raised), how many times
increment_quota was invoked, and whether the coroutine ever completed. -/
structure FanoutResult where
  events : List Event
  done : Bool
  semCapacity : Option Int
  quotaCalls : Nat
  completed : Bool
deriving DecidableEq, Repr

/-- Embedding of run_fanout in main.py.  run_start is published first;
asyncio.Semaphore(max_parallel) raises ValueError for a negative value,
which the except branch turns into run_error with done set by the
finally block; a zero-capacity semaphore with at least one panel blocks
every panel task forever, so the gather never returns, nothing further
is published and the finally block never runs; otherwise all panel tasks
run to completion, increment_quota is invoked once when the run has a
user and at least one platform-key panel succeeded (its failure being
caught), and run_done is published carrying the usage snapshot when one
was returned.  Panel events are recorded panel by panel; the realized
interleaving does not affect any per-panel or post-gather property. -/
def run_fanout (runId : String) (userPresent : Bool) (panels : List PanelSpec)
    (maxParallel : Int) (q : QuotaOutcome) : FanoutResult :=
  if maxParallel < 0 then
    ⟨[Event.runStart runId panels.length, Event.runError runId "ValueError"],
     true, none, 0, true⟩
  else if maxParallel == 0 && !panels.isEmpty then
    ⟨[Event.runStart runId panels.length], false, some maxParallel, 0, false⟩
  else
    let results := panels.map (fun p =>
      stream_to_provider p.cfgId p.isPlatform p.knownProvider p.outcomes)
    let mid := (results.map ThreadResult.events).flatten
    let successConfigs := results.filter ThreadResult.platformSuccess
    let callsQuota : Nat × Option (Nat × Nat) :=
      if userPresent && !successConfigs.isEmpty then
        match q with
        | .failure => (1, none)
        | .noneReturned => (1, none)
        | .snapshot u l => (1, some (u, l))
      else (0, none)
    ⟨Event.runStart runId panels.length :: (mid ++ [Event.runDone runId callsQuota.2]),
     true, some maxParallel, callsQuota.1, true⟩

/-- One entry of the RUNS registry, with the channel length made
explicit so drain state can be observed. -/
structure RunEntry where
  runId : String
  createdAt : Int
  queueLen : Nat
  done : Bool
deriving DecidableEq, Repr

/-- RUN_TTL_SECONDS = max(10, int(os.environ.get("RUN_TTL_SECONDS", "60"))). -/
def runTTLSeconds (envValue : Int) : Int := max 10 envValue

/-- Embedding of one sweep iteration of cleanup_stale_runs in main.py:
delete every registry entry that is done and older than the TTL. -/
def cleanup_stale_runs (runs : List RunEntry) (now ttl : Int) : List RunEntry :=
  runs.filter (fun r => !(r.done && decide (ttl < now - r.createdAt)))

/-- Embedding of the finally block of the stream_events route in
main.py: when the stream closes and the run it was reading is done, the
registry entry with that id is popped; otherwise nothing changes. -/
def stream_events_cleanup (runs : List RunEntry) (run : RunEntry) : List RunEntry :=
  if run.done then runs.filter (fun x => !(x.runId == run.runId)) else runs

/-- MAX_MESSAGE_LENGTH = 10_000_000 in main.py. -/
def MAX_MESSAGE_LENGTH : Nat := 10000000

/-- An HTTPException raised by a route. -/
structure HTTPError where
  status : Nat
  detail : String
deriving DecidableEq, Repr

/-- The data of one POST /runs request that the validation sequence of
create_run inspects, with collaborator results (JSON parse, quota read,
attachment reads) abstracted to their observable outcome. -/
structure CreateRunArgs where
  messageLen : Nat
  configsOk : Bool
  configCount : Nat
  platformPanelCount : Nat
  userPresent : Bool
  quotaRemaining : Nat
  attachmentsOk : Bool
deriving DecidableEq, Repr

/-- Result of create_run: the HTTP response, the registry afterwards,
the quota counter afterwards (create_run only reads quota), and whether
the background run_fanout task was started. -/
structure CreateRunResult where
  response : Except HTTPError String
  registry : List String
  quotaUsed : Nat
  dispatched : Bool
deriving Repr

/-- Embedding of the create_run route in main.py, check for check in
source order: message length, configs JSON parse, config count 1..10,
quota sufficiency when platform keys are used by an authenticated user,
authentication when platform keys are needed, attachment reads; only
then is the run registered and run_fanout started. -/
def create_run (registry : List String) (quotaUsed : Nat) (a : CreateRunArgs)
    (newRunId : String) : CreateRunResult :=
  if a.messageLen > MAX_MESSAGE_LENGTH then
    ⟨.error ⟨400, "Message exceeds 10000000 character limit"⟩, registry, quotaUsed, false⟩
  else if !a.configsOk then
    ⟨.error ⟨400, "Invalid configs JSON"⟩, registry, quotaUsed, false⟩
  else if a.configCount == 0 || a.configCount > 10 then
    ⟨.error ⟨400, "configs must be 1..10 items"⟩, registry, quotaUsed, false⟩
  else if a.platformPanelCount > 0 && a.userPresent
      && a.quotaRemaining < a.platformPanelCount then
    ⟨.error ⟨429, "Insufficient quota"⟩, registry, quotaUsed, false⟩
  else if a.platformPanelCount > 0 && !a.userPresent then
    ⟨.error ⟨401, "Authentication required for platform API key usage"⟩,
     registry, quotaUsed, false⟩
  else if !a.attachmentsOk then
    ⟨.error ⟨400, "Failed to read attachment"⟩, registry, quotaUsed, false⟩
  else
    ⟨.ok newRunId, registry ++ [newRunId], quotaUsed, true⟩

/-- The error classes a provider raises, collapsed to their retry
behaviour at the panel boundary of main.py: every class other than
rateLimit is an APIError subclass caught by the same immediate arm. -/
inductive ProviderErrorKind where
  | rateLimit
  | authentication
  | modelNotFound
  | contextLength
  | api
deriving DecidableEq, Repr

/-- A classified provider error: its class and the message the raised
exception carries. -/
structure ClassifiedError where
  kind : ProviderErrorKind
  message : String
deriving DecidableEq, Repr

/-- Embedding of the except arm of OpenAIProvider.stream in
providers/openai.py: classify the raw SDK error text by substring and
raise a sanitized, fixed message. -/
def classify_openai_error (errorMsg model : String) : ClassifiedError :=
  let errorLower := lowerStr errorMsg
  if containsSub errorMsg "429" || containsSub errorLower "rate" then
    ⟨.rateLimit, "Rate limited by OpenAI API. Please try again later."⟩
  else if containsSub errorMsg "401" || containsSub errorLower "invalid_api_key" then
    ⟨.authentication, "Invalid API key. Please check your OpenAI API key."⟩
  else if containsSub errorMsg "403" || containsSub errorLower "permission" then
    ⟨.authentication, "Permission denied. Your API key may lack required permissions."⟩
  else if containsSub errorLower "model"
      && (containsSub errorLower "not found" || containsSub errorLower "does not exist") then
    ⟨.modelNotFound, "Model " ++ model ++ " is not available."⟩
  else if containsSub errorLower "context_length" || containsSub errorLower "maximum context" then
    ⟨.contextLength, "Message too long for this models context window."⟩
  else
    ⟨.api, "OpenAI API error. Please try again."⟩

/-- Embedding of the except arm of GeminiProvider.stream in
providers/gemini.py: classify the raw SDK error text by substring; every
branch embeds the raw text in the raised message. -/
def classify_gemini_error (errorMsg model : String) : ClassifiedError :=
  let errorLower := lowerStr errorMsg
  if containsSub errorMsg "429" || containsSub errorLower "quota" then
    ⟨.rateLimit, "Rate limited by Gemini API: " ++ errorMsg⟩
  else if containsSub errorMsg "401" || containsSub errorMsg "403"
      || containsSub errorLower "permission" then
    ⟨.authentication, "Authentication failed: " ++ errorMsg⟩
  else if containsSub errorLower "invalid" && containsSub errorLower "model" then
    ⟨.modelNotFound, "Model " ++ model ++ " not available: " ++ errorMsg⟩
  else
    ⟨.api, "Gemini API error: " ++ errorMsg⟩

/-- How a classified provider exception lands in the retry loop of
main.py: the rate-limit class hits the RateLimitError arm, every other
class is an APIError subclass and hits the immediate arm. -/
def outcome_of_provider_error (chunks : List String) (e : ClassifiedError) : AttemptOutcome :=
  match e.kind with
  | .rateLimit => .rateLimit chunks e.message
  | _ => .apiError chunks e.message

/-- Keyword parameters accepted by stream_gemini in providers/gemini.py. -/
def stream_gemini_accepted_kwargs : List String :=
  ["message", "model", "api_key", "system_instruction", "max_tokens", "file_data"]

/-- Keyword parameters accepted by stream_openai in providers/openai.py. -/
def stream_openai_accepted_kwargs : List String :=
  ["message", "model", "api_key", "system_instruction", "max_tokens", "file_data",
   "temperature"]

/-- Keyword parameters accepted by stream_anthropic in providers/anthropic.py. -/
def stream_anthropic_accepted_kwargs : List String :=
  ["message", "model", "api_key", "system_instruction", "max_tokens", "file_data",
   "temperature", "user_id", "enable_prompt_caching"]

/-- Keyword arguments main.py passes at each of the three adapter call
sites inside the worker threads. -/
def main_stream_call_kwargs : List String :=
  ["message", "model", "api_key", "system_instruction", "max_tokens", "file_data",
   "web_search_enabled"]

/-- A Python call binds successfully only when every passed keyword is
an accepted parameter; otherwise it raises TypeError at call time. -/
def call_kwargs_accepted (params kwargs : List String) : Bool :=
  kwargs.all (fun k => params.contains k)

/-! ## Helper lemmas -/

lemma tokens_filter_start (c c' : String) (xs : List String) :
    (xs.map (Event.panelToken c')).filter (isPanelStartFor c) = [] := by
  induction xs with
  | nil => rfl
  | cons a l ih => simp [isPanelStartFor, ih]

lemma tokens_filter_terminal (c c' : String) (xs : List String) :
    (xs.map (Event.panelToken c')).filter (isTerminalFor c) = [] := by
  induction xs with
  | nil => rfl
  | cons a l ih => simp [isTerminalFor, ih]

lemma tokens_filter_panel_error (c c' : String) (xs : List String) :
    (xs.map (Event.panelToken c')).filter (isPanelErrorFor c) = [] := by
  induction xs with
  | nil => rfl
  | cons a l ih => simp [isPanelErrorFor, ih]

lemma token_blocks_filter_start (c : String) (fails : List (List String × String)) :
    ((fails.map (fun f => f.1.map (Event.panelToken c))).flatten).filter (isPanelStartFor c)
      = [] := by
  induction fails with
  | nil => rfl
  | cons a l ih => simp [List.filter_append, tokens_filter_start, ih]

lemma token_blocks_filter_terminal (c : String) (fails : List (List String × String)) :
    ((fails.map (fun f => f.1.map (Event.panelToken c))).flatten).filter (isTerminalFor c)
      = [] := by
  induction fails with
  | nil => rfl
  | cons a l ih => simp [List.filter_append, tokens_filter_terminal, ih]

lemma run_thread_rl_success (cfgId : String) (plat : Bool) (chunks : List String)
    (cits : Bool) :
    ∀ (fails : List (List String × String)) (rc : Nat), rc + fails.length ≤ 3 →
    run_provider_thread cfgId plat
        (fails.map (fun f => AttemptOutcome.rateLimit f.1 f.2)
          ++ [AttemptOutcome.success chunks cits]) rc
      = ⟨(fails.map (fun f => f.1.map (Event.panelToken cfgId))).flatten
           ++ (chunks.map (Event.panelToken cfgId)
             ++ [Event.panelFinal cfgId (pyStrip (joinParts chunks))]
             ++ (if cits then [Event.panelCitations cfgId] else [])),
         (List.range fails.length).map (fun i => 2 ^ (rc + i)),
         some (pyStrip (joinParts chunks)), plat, fails.length + 1⟩ := by
  intro fails
  induction fails with
  | nil =>
    intro rc h
    simp [run_provider_thread]
  | cons a l ih =>
    intro rc h
    have hlen : (a :: l).length = l.length + 1 := rfl
    have hlt : rc < 3 := by rw [hlen] at h; omega
    have hrec := ih (rc + 1) (by rw [hlen] at h; omega)
    have hrange : (List.range (l.length + 1)).map (fun i => 2 ^ (rc + i))
        = 2 ^ rc :: (List.range l.length).map (fun i => 2 ^ ((rc + 1) + i)) := by
      rw [List.range_succ_eq_map, List.map_cons, List.map_map]
      refine congrArg₂ _ (by simp) ?_
      refine List.map_congr_left ?_
      intro i _
      simp only [Function.comp_apply]
      congr 1
      omega
    simp only [List.map_cons, List.cons_append, List.flatten_cons, hlen, hrange]
    simp [run_provider_thread, hlt, hrec, List.append_assoc]

/-! ## Claim theorems -/

/-- Claim C1, evaluated at a failing input.  The claim says at most one
terminal panel event is ever published per panel and the two kinds are
mutually exclusive.  The code violates this: for a panel whose only
provider attempt raises a classified non-rate-limit error, the worker
thread publishes panel_error, and the wrapper then finds no entry in
run.finals for the panel and publishes an additional empty panel_final,
so the channel carries two terminal events of both kinds. -/
theorem c1_two_terminal_events_for_one_panel :
    (stream_to_provider "p1" false true
        [AttemptOutcome.apiError [] "Gemini API error: boom"]).events
      = [Event.panelStart "p1", Event.panelPrivacy "p1",
         Event.panelError "p1" "Gemini API error: boom", Event.panelFinal "p1" ""]
    ∧ ((stream_to_provider "p1" false true
        [AttemptOutcome.apiError [] "Gemini API error: boom"]).events.filter
          (isTerminalFor "p1")).length = 2 := ⟨rfl, rfl⟩

/-- Claim C2: a failure classified as rate-limit is retried up to three
additional attempts (four in total) with waits of 1, 2 and 4 seconds
before a terminal error is surfaced, and a failure classified as
authentication, model-not-found or bad-request (an APIError subclass
other than RateLimitError) is surfaced immediately, the remaining
outcome budget being irrelevant. -/
theorem c2_retry_policy :
    (∀ (m : String) (rest : List AttemptOutcome),
      run_provider_thread "p" false
          (List.replicate 4 (AttemptOutcome.rateLimit [] m) ++ rest) 0
        = ⟨[Event.panelError "p" ("Rate limited after 3 retries: " ++ m)],
           [1, 2, 4], none, false, 4⟩)
    ∧ (∀ (m : String) (chunks : List String) (rest : List AttemptOutcome),
      run_provider_thread "p" false
          (outcome_of_provider_error chunks ⟨.authentication, m⟩ :: rest) 0
        = ⟨chunks.map (Event.panelToken "p") ++ [Event.panelError "p" m],
           [], none, false, 1⟩)
    ∧ (∀ (m : String) (chunks : List String) (rest : List AttemptOutcome),
      run_provider_thread "p" false
          (outcome_of_provider_error chunks ⟨.modelNotFound, m⟩ :: rest) 0
        = ⟨chunks.map (Event.panelToken "p") ++ [Event.panelError "p" m],
           [], none, false, 1⟩)
    ∧ (∀ (m : String) (chunks : List String) (rest : List AttemptOutcome),
      run_provider_thread "p" false
          (outcome_of_provider_error chunks ⟨.api, m⟩ :: rest) 0
        = ⟨chunks.map (Event.panelToken "p") ++ [Event.panelError "p" m],
           [], none, false, 1⟩)
    ∧ classify_openai_error "HTTP 429 too many requests" "gpt-4o"
        = ⟨.rateLimit, "Rate limited by OpenAI API. Please try again later."⟩
    ∧ classify_openai_error "HTTP 401 unauthorized" "gpt-4o"
        = ⟨.authentication, "Invalid API key. Please check your OpenAI API key."⟩ := by
  refine ⟨fun m rest => rfl, fun m chunks rest => rfl, fun m chunks rest => rfl,
    fun m chunks rest => rfl, by decide, by decide⟩

/-- Claim C3, refuted at a concrete input.  The claim says panel_token
events come only from the successful attempt.  Here the first attempt
yields the token A and then raises a rate-limit error; the retry
succeeds yielding B.  The already published panel_token A from the
failed attempt remains in the stream. -/
theorem c3_counterexample :
    (stream_to_provider "p1" false true
        [AttemptOutcome.rateLimit ["A"] "rl", AttemptOutcome.success ["B"] false]).events
      = [Event.panelStart "p1", Event.panelPrivacy "p1", Event.panelToken "p1" "A",
         Event.panelToken "p1" "B", Event.panelFinal "p1" "B"]
    ∧ Event.panelToken "p1" "A" ∈ (stream_to_provider "p1" false true
        [AttemptOutcome.rateLimit ["A"] "rl", AttemptOutcome.success ["B"] false]).events := by
  refine ⟨rfl, by decide⟩

/-- Claim C9, evaluated against the adapter signatures.  main.py passes
web_search_enabled at each of the three adapter call sites, but none of
stream_gemini, stream_openai or stream_anthropic accepts such a keyword
parameter, so every one of these calls raises TypeError at call time and
no adapter ever receives the flag. -/
theorem c9_adapter_rejects_web_search_flag :
    call_kwargs_accepted stream_gemini_accepted_kwargs main_stream_call_kwargs = false
    ∧ call_kwargs_accepted stream_openai_accepted_kwargs main_stream_call_kwargs = false
    ∧ call_kwargs_accepted stream_anthropic_accepted_kwargs main_stream_call_kwargs = false
    ∧ "web_search_enabled" ∈ main_stream_call_kwargs
    ∧ stream_gemini_accepted_kwargs.contains "web_search_enabled" = false
    ∧ stream_openai_accepted_kwargs.contains "web_search_enabled" = false
    ∧ stream_anthropic_accepted_kwargs.contains "web_search_enabled" = false := by
  decide

/-- Claim C10: a request whose message exceeds MAX_MESSAGE_LENGTH is
rejected with HTTP 400 by the first check of create_run, before the run
is registered or dispatched; the registry and the quota counter are
returned unchanged. -/
theorem c10_message_length_rejected :
    ∀ (registry : List String) (quotaUsed : Nat) (a : CreateRunArgs) (rid : String),
    a.messageLen > MAX_MESSAGE_LENGTH →
    (create_run registry quotaUsed a rid).response
        = Except.error ⟨400, "Message exceeds 10000000 character limit"⟩
    ∧ (create_run registry quotaUsed a rid).registry = registry
    ∧ (create_run registry quotaUsed a rid).quotaUsed = quotaUsed
    ∧ (create_run registry quotaUsed a rid).dispatched = false := by
  intro registry q a rid h
  unfold create_run
  rw [if_pos h]
  exact ⟨rfl, rfl, rfl, rfl⟩

/-- Witness for C10 at a concrete oversized message. -/
theorem c10_message_length_rejected_witness :
    (create_run ["existing"] 7 ⟨10000001, true, 1, 0, false, 0, true⟩ "rid").registry
        = ["existing"]
    ∧ (create_run ["existing"] 7 ⟨10000001, true, 1, 0, false, 0, true⟩ "rid").dispatched
        = false :=
  ⟨(c10_message_length_rejected ["existing"] 7 ⟨10000001, true, 1, 0, false, 0, true⟩ "rid"
      (by decide)).2.1,
   (c10_message_length_rejected ["existing"] 7 ⟨10000001, true, 1, 0, false, 0, true⟩ "rid"
      (by decide)).2.2.2⟩

/-- Claim C3 as amended: for a panel that succeeds with nonempty final
text after at most three rate-limited attempts, the stream carries
exactly one panel_start and exactly one terminal event (the panel_final
built from the successful attempt only), and the retry waits follow the
powers of two; however the panel_token events of the failed attempts
remain visible in the stream (see the counterexample), so retries are
invisible only at the start/terminal level, not at the token level. -/
theorem c3_retry_invisible_except_tokens :
    ∀ (fails : List (List String × String)) (chunks : List String) (cits : Bool),
    fails.length ≤ 3 → pyStrip (joinParts chunks) ≠ "" →
    ((stream_to_provider "p" false true
        (fails.map (fun f => AttemptOutcome.rateLimit f.1 f.2)
          ++ [AttemptOutcome.success chunks cits])).events.filter (isPanelStartFor "p")
      = [Event.panelStart "p"])
    ∧ ((stream_to_provider "p" false true
        (fails.map (fun f => AttemptOutcome.rateLimit f.1 f.2)
          ++ [AttemptOutcome.success chunks cits])).events.filter (isTerminalFor "p")
      = [Event.panelFinal "p" (pyStrip (joinParts chunks))])
    ∧ (stream_to_provider "p" false true
        (fails.map (fun f => AttemptOutcome.rateLimit f.1 f.2)
          ++ [AttemptOutcome.success chunks cits])).sleeps
      = (List.range fails.length).map (fun i => 2 ^ i)
    ∧ (stream_to_provider "p" false true
        (fails.map (fun f => AttemptOutcome.rateLimit f.1 f.2)
          ++ [AttemptOutcome.success chunks cits])).attempts = fails.length + 1 := by
  intro fails chunks cits hlen hne
  have ht := run_thread_rl_success "p" false chunks cits fails 0 (by omega)
  refine ⟨?_, ?_, ?_, ?_⟩ <;>
    cases cits <;>
      simp [stream_to_provider, stream_provider_native, ht, hne, List.filter_append,
        token_blocks_filter_start, token_blocks_filter_terminal, tokens_filter_start,
        tokens_filter_terminal, isPanelStartFor, isTerminalFor, Nat.zero_add]

/-- Witness for C3 as amended: one rate-limited attempt that yielded a
token, then a successful attempt. -/
theorem c3_retry_invisible_except_tokens_witness :
    ((stream_to_provider "p" false true
        ([(["A"], "r1")].map (fun f => AttemptOutcome.rateLimit f.1 f.2)
          ++ [AttemptOutcome.success ["B"] false])).events.filter (isTerminalFor "p")
      = [Event.panelFinal "p" (pyStrip (joinParts ["B"]))])
    ∧ (stream_to_provider "p" false true
        ([(["A"], "r1")].map (fun f => AttemptOutcome.rateLimit f.1 f.2)
          ++ [AttemptOutcome.success ["B"] false])).sleeps
      = (List.range ([(["A"], "r1")] : List (List String × String)).length).map
          (fun i => 2 ^ i) :=
  ⟨(c3_retry_invisible_except_tokens [(["A"], "r1")] ["B"] false (by decide) (by decide)).2.1,
   (c3_retry_invisible_except_tokens [(["A"], "r1")] ["B"] false (by decide) (by decide)).2.2.1⟩

/-- Claim C4, refuted at a concrete input: with caller-supplied
maxParallel of 11 the semaphore is created with capacity 11, which is
outside the range 1 to 10 the claim promises. -/
theorem c4_counterexample :
    (run_fanout "r" false [⟨"p1", false, true, [AttemptOutcome.success ["ok"] false]⟩]
        11 QuotaOutcome.noneReturned).semCapacity = some 11
    ∧ ¬((1 : Int) ≤ 11 ∧ (11 : Int) ≤ 10) := ⟨rfl, by decide⟩

/-- Claim C4 as amended: no clamping occurs anywhere between the route
and the semaphore.  Whenever the semaphore is constructed (maxParallel
nonnegative, asyncio.Semaphore accepting zero) its capacity is exactly
the caller-supplied value, and a negative value makes the constructor
raise so no semaphore exists. -/
theorem c4_no_clamping :
    ∀ (runId : String) (u : Bool) (panels : List PanelSpec) (mp : Int) (q : QuotaOutcome),
    (0 ≤ mp → (run_fanout runId u panels mp q).semCapacity = some mp)
    ∧ (mp < 0 → (run_fanout runId u panels mp q).semCapacity = none) := by
  intro runId u panels mp q
  constructor
  · intro h
    unfold run_fanout
    rw [if_neg (by omega)]
    by_cases h2 : (mp == 0 && !panels.isEmpty) = true
    · rw [if_pos h2]
    · rw [if_neg h2]
  · intro h
    unfold run_fanout
    rw [if_pos h]

/-- Witness for C4 as amended, at capacity 3 and at a negative value. -/
theorem c4_no_clamping_witness :
    (run_fanout "r" false [] 3 QuotaOutcome.noneReturned).semCapacity = some 3
    ∧ (run_fanout "r" false [] (-2) QuotaOutcome.noneReturned).semCapacity = none :=
  ⟨(c4_no_clamping "r" false [] 3 QuotaOutcome.noneReturned).1 (by decide),
   (c4_no_clamping "r" false [] (-2) QuotaOutcome.noneReturned).2 (by decide)⟩

/-- Claim C5, evaluated at a failing input.  With maxParallel 0 and one
panel, every panel task blocks forever on the zero-capacity semaphore:
after run_start nothing is ever published, no run_done or run_error
exists on the channel, and done stays false because the finally block of
the suspended coroutine never executes. -/
theorem c5_zero_capacity_deadlock :
    run_fanout "r" true [⟨"p1", false, true, [AttemptOutcome.success ["hi"] false]⟩] 0
        QuotaOutcome.noneReturned
      = ⟨[Event.runStart "r" 1], false, some 0, 0, false⟩
    ∧ (run_fanout "r" true [⟨"p1", false, true, [AttemptOutcome.success ["hi"] false]⟩] 0
        QuotaOutcome.noneReturned).events.filter isRunTerminal = []
    ∧ (run_fanout "r" true [⟨"p1", false, true, [AttemptOutcome.success ["hi"] false]⟩] 0
        QuotaOutcome.noneReturned).done = false := ⟨rfl, rfl, rfl⟩

/-- Claim C6, refuted at a concrete input.  A run that is done and past
the TTL is evicted by the sweep even though its channel still holds five
unread events; the claimed drained-by-a-reader precondition is not
checked anywhere. -/
theorem c6_counterexample :
    cleanup_stale_runs [⟨"r1", 0, 5, true⟩] 100 (runTTLSeconds 60) = []
    ∧ (⟨"r1", 0, 5, true⟩ : RunEntry).queueLen = 5 := by
  exact ⟨by decide, rfl⟩

/-- Claim C6 as amended: a run is removed from the registry only when it
is done — the sweep removes it only if additionally the TTL has elapsed
since creation, and a closing event stream removes only the done run it
was reading — with no drain requirement in either path; in particular no
run is ever evicted while done is false. -/
theorem c6_eviction_only_when_done :
    ∀ (runs : List RunEntry) (now ttl : Int) (r : RunEntry),
    (r ∈ runs → r ∉ cleanup_stale_runs runs now ttl →
      r.done = true ∧ ttl < now - r.createdAt)
    ∧ (∀ s : RunEntry, r ∈ runs → r ∉ stream_events_cleanup runs s →
      s.done = true ∧ r.runId = s.runId) := by
  intro runs now ttl r
  constructor
  · intro hm hn
    by_cases hd : r.done = true
    · by_cases hlt : ttl < now - r.createdAt
      · exact ⟨hd, hlt⟩
      · exfalso
        apply hn
        unfold cleanup_stale_runs
        rw [List.mem_filter]
        exact ⟨hm, by simp [hd, hlt]⟩
    · exfalso
      apply hn
      unfold cleanup_stale_runs
      rw [List.mem_filter]
      have hdf : r.done = false := by revert hd; cases r.done <;> simp
      exact ⟨hm, by simp [hdf]⟩
  · intro s hm hn
    unfold stream_events_cleanup at hn
    by_cases hd : s.done = true
    · rw [if_pos hd] at hn
      refine ⟨hd, ?_⟩
      by_contra hne
      apply hn
      rw [List.mem_filter]
      exact ⟨hm, by simp [hne]⟩
    · rw [if_neg hd] at hn
      exact absurd hm hn

/-- Witness for C6 as amended: a done run past the TTL evicted by the
sweep. -/
theorem c6_eviction_only_when_done_witness :
    (⟨"r1", 0, 0, true⟩ : RunEntry).done = true
    ∧ (10 : Int) < 100 - (⟨"r1", 0, 0, true⟩ : RunEntry).createdAt :=
  (c6_eviction_only_when_done [⟨"r1", 0, 0, true⟩] 100 10 ⟨"r1", 0, 0, true⟩).1
    (by decide) (by decide)

lemma charLeadSeg_self : ∀ (l : List Char), charLeadSeg l l = true := by
  intro l
  induction l with
  | nil => rfl
  | cons a t ih => simp [charLeadSeg, ih]

lemma charOccursIn_of_append : ∀ (pre pat : List Char), charOccursIn pat (pre ++ pat) = true := by
  intro pre pat
  induction pre with
  | nil =>
    cases pat with
    | nil => rfl
    | cons a t => simp [charOccursIn, charLeadSeg_self]
  | cons b bs ih => simp [charOccursIn, ih]

lemma containsSub_of_append (s t : String) : containsSub (s ++ t) t = true :=
  charOccursIn_of_append s.data t.data

/-- Claim C7, refuted at a concrete input.  An unclassified exception
whose text is user content is surfaced verbatim: the Gemini classifier
embeds the raw text in its message, and the bare except arm at the panel
boundary of main.py surfaces the exception type name followed by the raw
text inside panel_error. -/
theorem c7_counterexample :
    (classify_gemini_error "user secret content" "m").message
      = "Gemini API error: user secret content"
    ∧ containsSub (classify_gemini_error "user secret content" "m").message
        "user secret content" = true
    ∧ (stream_to_provider "p1" false true
        [AttemptOutcome.unclassified [] "ValueError" "user secret content"]).events
      = [Event.panelStart "p1", Event.panelPrivacy "p1",
         Event.panelError "p1" "ValueError: user secret content",
         Event.panelFinal "p1" ""]
    ∧ containsSub "ValueError: user secret content" "user secret content" = true := by
  refine ⟨by decide, by decide, rfl, by decide⟩

/-- Claim C7 as amended: for every panel whose dispatch fails with an
unclassified error, the surfaced panel_error message is the exception
type name followed by the raw exception text, which therefore always
appears verbatim in the payload; no sanitization happens at the panel
boundary. -/
theorem c7_unclassified_error_carries_raw_text :
    ∀ (ty raw : String) (chunks : List String),
    ((stream_to_provider "p" false true
        [AttemptOutcome.unclassified chunks ty raw]).events.filter (isPanelErrorFor "p")
      = [Event.panelError "p" (ty ++ ": " ++ raw)])
    ∧ containsSub (ty ++ ": " ++ raw) raw = true := by
  intro ty raw chunks
  constructor
  · simp [stream_to_provider, stream_provider_native, run_provider_thread,
      List.filter_append, tokens_filter_panel_error, isPanelErrorFor]
  · exact containsSub_of_append (ty ++ ": ") raw

lemma getLast?_cons_concat (a y : Event) (xs : List Event) :
    (a :: (xs ++ [y])).getLast? = some y := by
  rw [← List.cons_append, List.getLast?_concat]

/-- Claim C8: increment_quota is invoked at most once per run, and only
when the run has a caller identity and at least one platform-key panel
succeeded; when it was invoked and raised, the failure is swallowed and
run_done is still the last event published (with no snapshot); when it
was invoked and returned a snapshot, run_done carries that snapshot. -/
theorem c8_quota_reconciliation :
    ∀ (runId : String) (u : Bool) (panels : List PanelSpec) (mp : Int),
    (∀ q, (run_fanout runId u panels mp q).quotaCalls ≤ 1)
    ∧ (∀ q, (run_fanout runId u panels mp q).quotaCalls = 1 →
        u = true
        ∧ (panels.map (fun p =>
            stream_to_provider p.cfgId p.isPlatform p.knownProvider p.outcomes)).filter
            ThreadResult.platformSuccess ≠ [])
    ∧ ((run_fanout runId u panels mp QuotaOutcome.failure).quotaCalls = 1 →
        (run_fanout runId u panels mp QuotaOutcome.failure).events.getLast?
          = some (Event.runDone runId none))
    ∧ (∀ used lim,
        (run_fanout runId u panels mp (QuotaOutcome.snapshot used lim)).quotaCalls = 1 →
        (run_fanout runId u panels mp (QuotaOutcome.snapshot used lim)).events.getLast?
          = some (Event.runDone runId (some (used, lim)))) := by
  intro runId u panels mp
  by_cases h1 : mp < 0
  · refine ⟨fun q => ?_, fun q hq => ?_, fun hq => ?_, fun used lim hq => ?_⟩ <;>
      simp [run_fanout, h1] at *
  · by_cases h2 : (mp == 0 && !panels.isEmpty) = true
    · refine ⟨fun q => ?_, fun q hq => ?_, fun hq => ?_, fun used lim hq => ?_⟩ <;>
        simp [run_fanout, h1, h2] at *
    · cases h3 : (u && !((panels.map (fun p =>
          stream_to_provider p.cfgId p.isPlatform p.knownProvider p.outcomes)).filter
          ThreadResult.platformSuccess).isEmpty)
      · refine ⟨fun q => ?_, fun q hq => ?_, fun hq => ?_, fun used lim hq => ?_⟩ <;>
          simp [run_fanout, h1, h2, h3] at *
      · have h3' := h3
        simp only [Bool.and_eq_true] at h3'
        obtain ⟨hu, h4⟩ := h3'
        have hne : (panels.map (fun p =>
            stream_to_provider p.cfgId p.isPlatform p.knownProvider p.outcomes)).filter
            ThreadResult.platformSuccess ≠ [] := by
          intro hcon
          rw [hcon] at h4
          simp at h4
        refine ⟨fun q => ?_, fun q hq => ⟨hu, hne⟩, fun hq => ?_, fun used lim hq => ?_⟩
        · cases q <;> simp [run_fanout, h1, h2, h3]
        · simp [run_fanout, h1, h2, h3, getLast?_cons_concat]
        · simp [run_fanout, h1, h2, h3, getLast?_cons_concat]

/-- Witness for C8 at a run with one successful platform-key panel and a
raising increment_quota. -/
theorem c8_quota_reconciliation_witness :
    (true = true
      ∧ (([⟨"p1", true, true, [AttemptOutcome.success ["ok"] false]⟩] : List PanelSpec).map
          (fun p =>
            stream_to_provider p.cfgId p.isPlatform p.knownProvider p.outcomes)).filter
          ThreadResult.platformSuccess ≠ [])
    ∧ (run_fanout "r" true [⟨"p1", true, true, [AttemptOutcome.success ["ok"] false]⟩] 2
        QuotaOutcome.failure).events.getLast? = some (Event.runDone "r" none) :=
  ⟨(c8_quota_reconciliation "r" true
      [⟨"p1", true, true, [AttemptOutcome.success ["ok"] false]⟩] 2).2.1
      QuotaOutcome.noneReturned (by decide),
   (c8_quota_reconciliation "r" true
      [⟨"p1", true, true, [AttemptOutcome.success ["ok"] false]⟩] 2).2.2.1 (by decide)⟩
